import Mathlib

/-!
Verification of the OpenTelemetry Python tracing API core
(`opentelemetry-api/src/opentelemetry/trace/__init__.py` and
`opentelemetry-api/src/opentelemetry/trace/sampling.py`).

The Python code is shallowly embedded: Python `int` becomes `Nat`/`Int`,
Python `float` becomes `ℚ` (every sampling rate a Python float can hold is a
rational; multiplying a float by the power of two `2 ^ 64` is exact in binary
floating point, so the rational model of `rate * (CHECK_BYTES + 1)` is exact),
`None`-able arguments become `Option`, dictionaries become association lists,
and a raised exception becomes an error value with the globals left unchanged.
Python object identity, where a claim depends on it, is modelled by an explicit
heap of `Decision` cells addressed by references.
-/

set_option linter.unusedVariables false

namespace OTelTrace

/-! ## Identifier types and `SpanContext`
(trace/__init__.py lines 257-300, 311-360, 379-387) -/

/-- `TraceOptions` is a Python `int` subclass used as a bitmask; only the
`SAMPLED` bit (0x01) is defined (trace/__init__.py lines 257-278). -/
abbrev TraceOptions := Nat

/-- The `SAMPLED` flag bit of `TraceOptions` (0x01). -/
def TraceOptions.SAMPLED : Nat := 0x01

/-- `TraceOptions.sampled` property: `bool(self & TraceOptions.SAMPLED)`. -/
def TraceOptions.sampled (o : TraceOptions) : Bool :=
  (o &&& TraceOptions.SAMPLED) != 0

/-- `TraceOptions.get_default()` returns `TraceOptions(DEFAULT)` with
`DEFAULT = 0x00`. -/
def DEFAULT_TRACE_OPTIONS : TraceOptions := 0x00

/-- `TraceState` is a dict of vendor-specific string pairs, modelled as an
association list (trace/__init__.py lines 284-300). -/
abbrev TraceState := List (String × String)

/-- `TraceState.get_default()` returns the empty mapping. -/
def DEFAULT_TRACE_STATE : TraceState := []

/-- The reserved invalid span id, `0x0000000000000000`
(trace/__init__.py line 379). -/
def INVALID_SPAN_ID : Nat := 0x0000000000000000

/-- The reserved invalid trace id, `0x00000000000000000000000000000000`
(trace/__init__.py line 380). -/
def INVALID_TRACE_ID : Nat := 0x00000000000000000000000000000000

/-- The state of a `Span` propagated between processes
(trace/__init__.py lines 311-338). -/
structure SpanContext where
  trace_id : Nat
  span_id : Nat
  trace_options : TraceOptions
  trace_state : TraceState
deriving DecidableEq

/-- `SpanContext.__init__`: `trace_options` and `trace_state` default to the
zero-value singletons when `None` is passed (trace/__init__.py lines 324-338). -/
def SpanContext.init (trace_id : Nat) (span_id : Nat)
    (trace_options : Option TraceOptions) (trace_state : Option TraceState) :
    SpanContext :=
  ⟨trace_id, span_id,
    trace_options.getD DEFAULT_TRACE_OPTIONS,
    trace_state.getD DEFAULT_TRACE_STATE⟩

/-- `SpanContext.is_valid`: true iff the trace id and the span id both differ
from their reserved invalid (zero) values (trace/__init__.py lines 348-360). -/
def SpanContext.is_valid (ctx : SpanContext) : Bool :=
  ctx.trace_id != INVALID_TRACE_ID && ctx.span_id != INVALID_SPAN_ID

/-- A `Link` to another span (trace/__init__.py lines 76-91). -/
structure Link where
  context : SpanContext
  attributes : Option (List (String × String))
deriving DecidableEq

/-! ## Sampling (sampling.py) -/

/-- A sampling decision (sampling.py lines 23-45): a `sampled` flag plus an
attribute mapping, modelled as an association list. -/
structure Decision where
  sampled : Bool
  attributes : List (String × String)
deriving DecidableEq

/-- `Decision.__init__`: `attributes` defaults to a fresh empty dict when
`None` is passed, otherwise the mapping is copied (sampling.py lines 36-45). -/
def Decision.init (sampled : Bool) (attributes : Option (List (String × String))) :
    Decision :=
  ⟨sampled, attributes.getD []⟩

/-- The mask for the last 8 bytes of the trace id,
`CHECK_BYTES = 0xFFFFFFFFFFFFFFFF` (sampling.py line 85). -/
def CHECK_BYTES : Nat := 0xFFFFFFFFFFFFFFFF

/-- Python 3 `round` on an exact rational value: round half to even,
returning an integer.  `Rat.floor q = q.num / q.den`; the fractional part is
compared with 1/2 by comparing `2*num - 2*floor*den` with `den`. -/
def pythonRound (q : ℚ) : ℤ :=
  let f := Rat.floor q
  let t := 2 * q.num - 2 * f * (q.den : ℤ)
  if t < (q.den : ℤ) then f
  else if (q.den : ℤ) < t then f + 1
  else if f % 2 = 0 then f else f + 1

/-- `ProbabilitySampler.get_bound_for_rate`:
`round(rate * (CHECK_BYTES + 1))` (sampling.py lines 87-89). -/
def get_bound_for_rate (rate : ℚ) : ℤ :=
  pythonRound (rate * ((CHECK_BYTES : ℚ) + 1))

/-- The mutable state of a `ProbabilitySampler`: the stored `_rate` and the
stored `_bound` (sampling.py lines 78-102). -/
structure ProbabilitySampler where
  _rate : ℚ
  _bound : ℤ

/-- `ProbabilitySampler.__init__(rate)`: stores the rate and immediately
computes the bound from it (sampling.py lines 79-81). -/
def ProbabilitySampler.init (rate : ℚ) : ProbabilitySampler :=
  ⟨rate, get_bound_for_rate rate⟩

/-- The `rate` property getter (sampling.py lines 91-93). -/
def ProbabilitySampler.rate (s : ProbabilitySampler) : ℚ := s._rate

/-- The `rate` property setter: stores the new rate and immediately recomputes
the bound from it (sampling.py lines 95-98). -/
def ProbabilitySampler.set_rate (s : ProbabilitySampler) (new_rate : ℚ) :
    ProbabilitySampler :=
  ⟨new_rate, get_bound_for_rate new_rate⟩

/-- The `bound` property getter (sampling.py lines 100-102). -/
def ProbabilitySampler.bound (s : ProbabilitySampler) : ℤ := s._bound

/-- `ProbabilitySampler.should_sample` (sampling.py lines 104-115): with a
parent context, `Decision(parent_context.trace_options.sampled)`; with no
parent, `Decision(trace_id & CHECK_BYTES < self.bound)` (in Python `&` binds
tighter than `<`). -/
def ProbabilitySampler.should_sample (s : ProbabilitySampler)
    (parent_context : Option SpanContext) (trace_id : Nat) (span_id : Nat)
    (name : String) (links : List Link) : Decision :=
  match parent_context with
  | some parent => Decision.init parent.trace_options.sampled none
  | none =>
      Decision.init (decide (((trace_id &&& CHECK_BYTES : Nat) : ℤ) < s.bound)) none

/-- `DEFAULT_OFF = ProbabilitySampler(0.0)` (sampling.py line 124). -/
def DEFAULT_OFF : ProbabilitySampler := ProbabilitySampler.init 0

/-- `DEFAULT_ON = ProbabilitySampler(1.0)` (sampling.py line 125). -/
def DEFAULT_ON : ProbabilitySampler := ProbabilitySampler.init 1

/-! ## Helper lemmas about the bound at the extreme rates -/

/-- At rate 0 the stored bound is 0. -/
theorem get_bound_for_rate_zero : get_bound_for_rate 0 = 0 := by
  have h : (0 : ℚ) * ((CHECK_BYTES : ℚ) + 1) = 0 := by ring
  rw [get_bound_for_rate, h]
  decide

/-- At rate 1 the stored bound is `2 ^ 64`. -/
theorem get_bound_for_rate_one : get_bound_for_rate 1 = 18446744073709551616 := by
  have h : (1 : ℚ) * ((CHECK_BYTES : ℚ) + 1) = (18446744073709551616 : ℚ) := by
    norm_num [CHECK_BYTES]
  rw [get_bound_for_rate, h]
  decide

/-- The trace-id mask keeps exactly the low 64 bits. -/
theorem and_check_bytes_eq_mod (t : Nat) : t &&& CHECK_BYTES = t % 2 ^ 64 := by
  have h : CHECK_BYTES = 2 ^ 64 - 1 := by norm_num [CHECK_BYTES]
  rw [h]
  exact Nat.and_pow_two_sub_one_eq_mod t 64

/-! ## Claim theorems C1-C6 -/

/-- C1: for every `SpanContext` constructed with trace id `t` and span id `s`
(any options and state), `is_valid()` is true iff `t` differs from
`INVALID_TRACE_ID = 0` and `s` differs from `INVALID_SPAN_ID = 0`. -/
theorem spanContext_is_valid_iff (t s : Nat) (o : Option TraceOptions)
    (st : Option TraceState) :
    (SpanContext.init t s o st).is_valid = true ↔
      (t ≠ INVALID_TRACE_ID ∧ s ≠ INVALID_SPAN_ID) := by
  simp [SpanContext.init, SpanContext.is_valid]

/-- C2: with no parent, the decision's `sampled` field is true iff the low 64
bits of the trace id, i.e. `trace_id & 0xFFFFFFFFFFFFFFFF`, are below the
sampler's stored bound; the mask equals reduction mod `2 ^ 64`, so only the
low 64 bits of the trace id participate. -/
theorem probability_root_decision (r : ℚ) (t sid : Nat) (n : String)
    (ls : List Link) :
    (((ProbabilitySampler.init r).should_sample none t sid n ls).sampled = true ↔
        ((t &&& 0xFFFFFFFFFFFFFFFF : Nat) : ℤ) < (ProbabilitySampler.init r).bound)
    ∧ t &&& 0xFFFFFFFFFFFFFFFF = t % 2 ^ 64 := by
  constructor
  · simp [ProbabilitySampler.should_sample, Decision.init, CHECK_BYTES]
  · exact and_check_bytes_eq_mod t

/-- C3: with any non-`None` parent context, the decision's `sampled` field
equals the parent's sampled flag, regardless of the sampler's stored rate and
bound, the trace id, span id, name, or links. -/
theorem probability_parent_decision (s : ProbabilitySampler)
    (parent : SpanContext) (t sid : Nat) (n : String) (ls : List Link) :
    (s.should_sample (some parent) t sid n ls).sampled
      = parent.trace_options.sampled := rfl

/-- C4: `ProbabilitySampler.should_sample` is deterministic and stateless: for
a fixed rate, the whole returned `Decision` is a function of the parent
context and the trace id only — two calls on samplers constructed with the
same rate, with the same parent and trace id, return the same decision even
when span id, name, and links differ between the calls. -/
theorem probability_deterministic (r : ℚ) (p : Option SpanContext) (t : Nat)
    (sid₁ sid₂ : Nat) (n₁ n₂ : String) (ls₁ ls₂ : List Link) :
    (ProbabilitySampler.init r).should_sample p t sid₁ n₁ ls₁
      = (ProbabilitySampler.init r).should_sample p t sid₂ n₂ ls₂ := by
  cases p <;> rfl

/-- C5: with no parent, `ProbabilitySampler(0.0)` (bound 0) never samples and
`ProbabilitySampler(1.0)` (bound `2 ^ 64`) always samples, for every trace id. -/
theorem probability_zero_one_root (t : Nat) (sid : Nat) (n : String)
    (ls : List Link) :
    ((ProbabilitySampler.init 0).should_sample none t sid n ls).sampled = false
    ∧ ((ProbabilitySampler.init 1).should_sample none t sid n ls).sampled = true := by
  have hmask : t &&& CHECK_BYTES ≤ 18446744073709551615 := Nat.and_le_right
  constructor
  · simp only [ProbabilitySampler.should_sample, Decision.init,
      ProbabilitySampler.bound, ProbabilitySampler.init, get_bound_for_rate_zero]
    simp
  · simp only [ProbabilitySampler.should_sample, Decision.init,
      ProbabilitySampler.bound, ProbabilitySampler.init, get_bound_for_rate_one]
    simp only [decide_eq_true_eq]
    omega

/-- C6: the stored bound always equals `round(rate * (0xFFFFFFFFFFFFFFFF + 1))`
for the stored rate: immediately after construction with any rate, and
immediately after every assignment through the `rate` setter (which also
stores the new rate). -/
theorem probability_bound_invariant (r : ℚ) (s : ProbabilitySampler) (r' : ℚ) :
    (ProbabilitySampler.init r).bound
        = pythonRound (r * ((0xFFFFFFFFFFFFFFFF : ℚ) + 1))
    ∧ (ProbabilitySampler.init r).rate = r
    ∧ (s.set_rate r').bound = pythonRound (r' * ((0xFFFFFFFFFFFFFFFF : ℚ) + 1))
    ∧ (s.set_rate r').rate = r' :=
  ⟨rfl, rfl, rfl, rfl⟩

/-! ## The placeholder span (trace/__init__.py lines 363-412) -/

/-- `DefaultSpan`: the no-op span used when no implementation is available;
all operations are no-op except context propagation
(trace/__init__.py lines 363-376). -/
structure DefaultSpan where
  _context : SpanContext
deriving DecidableEq

/-- `DefaultSpan.get_context` returns the stored context. -/
def DefaultSpan.get_context (s : DefaultSpan) : SpanContext := s._context

/-- `DefaultSpan.is_recording_events` always returns `False`. -/
def DefaultSpan.is_recording_events (s : DefaultSpan) : Bool := false

/-- `INVALID_SPAN_CONTEXT` (trace/__init__.py lines 381-386). -/
def INVALID_SPAN_CONTEXT : SpanContext :=
  SpanContext.init INVALID_TRACE_ID INVALID_SPAN_ID
    (some DEFAULT_TRACE_OPTIONS) (some DEFAULT_TRACE_STATE)

/-- `INVALID_SPAN = DefaultSpan(INVALID_SPAN_CONTEXT)`
(trace/__init__.py line 387). -/
def INVALID_SPAN : DefaultSpan := ⟨INVALID_SPAN_CONTEXT⟩

/-- `Tracer.get_current_span` in the base API class: there is never a current
span, so it returns the placeholder `INVALID_SPAN`
(trace/__init__.py lines 401-412). -/
def Tracer.get_current_span : DefaultSpan := INVALID_SPAN

/-! ## The global tracer selector (trace/__init__.py lines 573-609) -/

/-- The module-level globals `_TRACER` and `_TRACER_FACTORY`
(trace/__init__.py lines 573-574), both initially `None`.  `T` is the type of
tracer instances and `F` the type of implementation factories; the `del` of
`_TRACER_FACTORY` performed by `tracer()` is modelled by resetting the field
to `none` (the later guard raises before ever reading or writing it again). -/
structure TracerGlobals (T F : Type) where
  _TRACER : Option T
  _TRACER_FACTORY : Option F
deriving DecidableEq

/-- `tracer()` (trace/__init__.py lines 577-589): if no tracer is cached,
load one through the external loader (`loader._load_impl`, abstracted as the
argument `load_impl`) from the stored factory, cache it and drop the factory;
otherwise return the cached instance with the globals untouched. -/
def tracer {T F : Type} (load_impl : Option F → T) (g : TracerGlobals T F) :
    T × TracerGlobals T F :=
  match g._TRACER with
  | none => (load_impl g._TRACER_FACTORY, ⟨some (load_impl g._TRACER_FACTORY), none⟩)
  | some t => (t, g)

/-- `set_preferred_tracer_implementation(factory)`
(trace/__init__.py lines 592-609): if a tracer is already cached the call
raises `RuntimeError("Tracer already loaded.")` before touching any global
(a tracer instance is always truthy, so `if _TRACER:` means "already
loaded"); otherwise it stores the factory.  The raise is modelled as an error
message returned alongside the unchanged globals. -/
def set_preferred_tracer_implementation {T F : Type} (factory : F)
    (g : TracerGlobals T F) : Option String × TracerGlobals T F :=
  match g._TRACER with
  | some _ => (some "Tracer already loaded.", g)
  | none => (none, ⟨g._TRACER, some factory⟩)

/-! ## Claim theorems C7-C8 -/

/-- C7: reselecting the tracer implementation after a tracer has been loaded
raises (returns the `RuntimeError` message) and leaves both the cached tracer
and the stored factory unchanged; before first use the factory is accepted
and stored; and `tracer()` always leaves the cache holding exactly the
instance it returned, so the guard fires on every state `tracer()` produces. -/
theorem tracer_selection_guard {T F : Type} (g : TracerGlobals T F) (f : F) :
    (∀ t : T, g._TRACER = some t →
        set_preferred_tracer_implementation f g
          = (some "Tracer already loaded.", g))
    ∧ (g._TRACER = none →
        set_preferred_tracer_implementation f g
          = (none, ⟨none, some f⟩))
    ∧ (∀ load_impl : Option F → T,
        ((tracer load_impl g).2)._TRACER = some ((tracer load_impl g).1)) := by
  refine ⟨?_, ?_, ?_⟩
  · intro t ht
    simp [set_preferred_tracer_implementation, ht]
  · intro h
    simp [set_preferred_tracer_implementation, h]
  · intro load_impl
    cases hg : g._TRACER <;> simp [tracer, hg]

/-- Witness for C7 at concrete inputs (`T = F = Nat`): with a tracer cached,
the call fails and changes nothing; with no tracer cached, it stores the
factory. -/
theorem tracer_selection_guard_witness :
    set_preferred_tracer_implementation 7
        (⟨some 3, none⟩ : TracerGlobals Nat Nat)
      = (some "Tracer already loaded.", ⟨some 3, none⟩)
    ∧ set_preferred_tracer_implementation 7
        (⟨none, none⟩ : TracerGlobals Nat Nat)
      = (none, ⟨none, some 7⟩) :=
  ⟨(tracer_selection_guard (⟨some 3, none⟩ : TracerGlobals Nat Nat) 7).1 3 rfl,
   (tracer_selection_guard (⟨none, none⟩ : TracerGlobals Nat Nat) 7).2.1 rfl⟩

/-- C8: the base tracer's `get_current_span` never fails: it returns the
placeholder `INVALID_SPAN`, whose `SpanContext` is invalid and which reports
that it is not recording events. -/
theorem get_current_span_placeholder :
    Tracer.get_current_span = INVALID_SPAN
    ∧ Tracer.get_current_span.get_context.is_valid = false
    ∧ Tracer.get_current_span.is_recording_events = false :=
  ⟨rfl, rfl, rfl⟩

/-! ## Fixed-width hexadecimal id formatting
(trace/__init__.py lines 303-308: `format_trace_id` renders
`"0x{:032x}".format(trace_id)` and `format_span_id` renders
`"0x{:016x}".format(span_id)`; both are used by `SpanContext.__repr__`). -/

/-- The lowercase hexadecimal digit characters, least value first. -/
def HEX_CHARS : List Char := "0123456789abcdef".toList

/-- The lowercase hexadecimal digit character for a value below 16. -/
def hexDigitChar (d : Nat) : Char := HEX_CHARS.getD d '0'

/-- Whether a character is a lowercase hexadecimal digit. -/
def isHexChar (c : Char) : Bool := HEX_CHARS.contains c

/-- The numeric value of a lowercase hexadecimal digit character. -/
def hexCharVal (c : Char) : Nat :=
  if c.toNat ≤ 57 then c.toNat - 48 else c.toNat - 87

/-- The hexadecimal digits of `n`, least significant first, using explicit
fuel so that the recursion is structural; `fuel ≥ n` yields all digits. -/
def natToHexRev (fuel : Nat) (n : Nat) : List Char :=
  match fuel, n with
  | _, 0 => []
  | 0, _ => []
  | fuel + 1, n => hexDigitChar (n % 16) :: natToHexRev fuel (n / 16)

/-- The hexadecimal digits of `n`, most significant first, with no leading
zeros (and no digits at all for 0, which padding then fills in, exactly as
`{:032x}` zero-pads). -/
def natToHexDigits (n : Nat) : List Char := (natToHexRev n n).reverse

/-- Zero-pad a digit string on the left to the given minimum width, as the
format specifier `0{width}x` does. -/
def zfill (width : Nat) (s : List Char) : List Char :=
  List.replicate (width - s.length) '0' ++ s

/-- `format_trace_id(trace_id)`: `"0x{:032x}".format(trace_id)`
(trace/__init__.py lines 303-304). -/
def format_trace_id (trace_id : Nat) : String :=
  String.mk ('0' :: 'x' :: zfill 32 (natToHexDigits trace_id))

/-- `format_span_id(span_id)`: `"0x{:016x}".format(span_id)`
(trace/__init__.py lines 307-308). -/
def format_span_id (span_id : Nat) : String :=
  String.mk ('0' :: 'x' :: zfill 16 (natToHexDigits span_id))

/-- The value denoted by a most-significant-first hexadecimal digit string. -/
def hexCharsVal (l : List Char) : Nat :=
  l.foldl (fun a c => 16 * a + hexCharVal c) 0

/-- The value denoted by a least-significant-first hexadecimal digit string. -/
def hexRevVal : List Char → Nat
  | [] => 0
  | c :: cs => hexCharVal c + 16 * hexRevVal cs

/-! ### Lemmas about the hex digit conversion -/

/-- Reading back a hexadecimal digit character gives the digit. -/
theorem hexCharVal_hexDigitChar : ∀ d : Nat, d < 16 →
    hexCharVal (hexDigitChar d) = d := by decide

/-- Every digit character emitted for a value below 16 is a hex digit. -/
theorem isHexChar_hexDigitChar : ∀ d : Nat, d < 16 →
    isHexChar (hexDigitChar d) = true := by decide

/-- With enough fuel, at most `k` digits are produced for `n < 16 ^ k`. -/
theorem natToHexRev_length_le (fuel : Nat) : ∀ n k : Nat, n ≤ fuel →
    n < 16 ^ k → (natToHexRev fuel n).length ≤ k := by
  induction fuel with
  | zero =>
      intro n k hn hk
      interval_cases n
      simp [natToHexRev]
  | succ fuel ih =>
      intro n k hn hk
      match n with
      | 0 => simp [natToHexRev]
      | m + 1 =>
          have hk0 : k ≠ 0 := by
            intro h
            rw [h] at hk
            omega
          obtain ⟨k', rfl⟩ : ∃ k', k = k' + 1 := ⟨k - 1, by omega⟩
          have hdiv_le : (m + 1) / 16 ≤ fuel := by
            have := Nat.div_le_self (m + 1) 16
            have h16 : (m + 1) / 16 < m + 1 := Nat.div_lt_self (by omega) (by omega)
            omega
          have hdiv_lt : (m + 1) / 16 < 16 ^ k' := by
            have : m + 1 < 16 * 16 ^ k' := by
              have := hk
              rw [pow_succ] at this
              omega
            exact Nat.div_lt_of_lt_mul this
          have := ih ((m + 1) / 16) k' hdiv_le hdiv_lt
          simp only [natToHexRev, List.length_cons]
          omega

/-- With enough fuel, every produced digit character is a hex digit. -/
theorem natToHexRev_all_hex (fuel : Nat) : ∀ n : Nat,
    ∀ c ∈ natToHexRev fuel n, isHexChar c = true := by
  induction fuel with
  | zero =>
      intro n c hc
      match n with
      | 0 => simp [natToHexRev] at hc
      | m + 1 => simp [natToHexRev] at hc
  | succ fuel ih =>
      intro n c hc
      match n with
      | 0 => simp [natToHexRev] at hc
      | m + 1 =>
          simp only [natToHexRev, List.mem_cons] at hc
          rcases hc with h | h
          · rw [h]
            exact isHexChar_hexDigitChar _ (Nat.mod_lt _ (by omega))
          · exact ih _ _ h

/-- With enough fuel, reading the digits back gives the number. -/
theorem hexRevVal_natToHexRev (fuel : Nat) : ∀ n : Nat, n ≤ fuel →
    hexRevVal (natToHexRev fuel n) = n := by
  induction fuel with
  | zero =>
      intro n hn
      interval_cases n
      simp [natToHexRev, hexRevVal]
  | succ fuel ih =>
      intro n hn
      match n with
      | 0 => simp [natToHexRev, hexRevVal]
      | m + 1 =>
          have hdiv_le : (m + 1) / 16 ≤ fuel := by
            have h16 : (m + 1) / 16 < m + 1 := Nat.div_lt_self (by omega) (by omega)
            omega
          simp only [natToHexRev, hexRevVal]
          rw [hexCharVal_hexDigitChar _ (Nat.mod_lt _ (by omega)),
            ih _ hdiv_le]
          omega

/-- Folding a most-significant-first string is the reverse of the
least-significant-first reading. -/
theorem hexCharsVal_reverse (l : List Char) :
    hexCharsVal l.reverse = hexRevVal l := by
  induction l with
  | nil => simp [hexCharsVal, hexRevVal]
  | cons c cs ih =>
      simp only [List.reverse_cons, hexRevVal]
      rw [← ih]
      simp only [hexCharsVal, List.foldl_append, List.foldl_cons, List.foldl_nil]
      omega

/-- Leading zero padding does not change the denoted value. -/
theorem hexCharsVal_zfill (w : Nat) (l : List Char) :
    hexCharsVal (zfill w l) = hexCharsVal l := by
  unfold zfill hexCharsVal
  rw [List.foldl_append]
  congr 1
  generalize w - l.length = k
  induction k with
  | zero => simp
  | succ k ih =>
      rw [List.replicate_succ, List.foldl_cons]
      simpa [hexCharVal] using ih

/-- Padding a string no longer than the width yields exactly the width. -/
theorem zfill_length (w : Nat) (l : List Char) (h : l.length ≤ w) :
    (zfill w l).length = w := by
  simp [zfill]
  omega

/-- Every character of a padded hex digit string is a hex digit. -/
theorem zfill_all_hex (w : Nat) (l : List Char)
    (h : ∀ c ∈ l, isHexChar c = true) :
    ∀ c ∈ zfill w l, isHexChar c = true := by
  intro c hc
  rw [zfill, List.mem_append] at hc
  rcases hc with h0 | h1
  · rw [List.eq_of_mem_replicate h0]
    decide
  · exact h c h1

/-! ## Claim theorem C9 -/

/-- C9: for every trace id below `2 ^ 128` and span id below `2 ^ 64`,
`format_trace_id` renders `0x` followed by exactly 32 zero-padded hexadecimal
digits denoting the trace id, and `format_span_id` renders `0x` followed by
exactly 16 zero-padded hexadecimal digits denoting the span id. -/
theorem format_ids_fixed_width (t s : Nat) (ht : t < 2 ^ 128)
    (hs : s < 2 ^ 64) :
    format_trace_id t = String.mk ('0' :: 'x' :: zfill 32 (natToHexDigits t))
    ∧ (zfill 32 (natToHexDigits t)).length = 32
    ∧ (∀ c ∈ zfill 32 (natToHexDigits t), isHexChar c = true)
    ∧ hexCharsVal (zfill 32 (natToHexDigits t)) = t
    ∧ format_span_id s = String.mk ('0' :: 'x' :: zfill 16 (natToHexDigits s))
    ∧ (zfill 16 (natToHexDigits s)).length = 16
    ∧ (∀ c ∈ zfill 16 (natToHexDigits s), isHexChar c = true)
    ∧ hexCharsVal (zfill 16 (natToHexDigits s)) = s := by
  have ht' : t < 16 ^ 32 := by
    have : (16 : Nat) ^ 32 = 2 ^ 128 := by norm_num
    omega
  have hs' : s < 16 ^ 16 := by
    have : (16 : Nat) ^ 16 = 2 ^ 64 := by norm_num
    omega
  have hlt : (natToHexDigits t).length ≤ 32 := by
    rw [natToHexDigits, List.length_reverse]
    exact natToHexRev_length_le t t 32 le_rfl ht'
  have hls : (natToHexDigits s).length ≤ 16 := by
    rw [natToHexDigits, List.length_reverse]
    exact natToHexRev_length_le s s 16 le_rfl hs'
  have hhext : ∀ c ∈ natToHexDigits t, isHexChar c = true := by
    intro c hc
    rw [natToHexDigits, List.mem_reverse] at hc
    exact natToHexRev_all_hex t t c hc
  have hhexs : ∀ c ∈ natToHexDigits s, isHexChar c = true := by
    intro c hc
    rw [natToHexDigits, List.mem_reverse] at hc
    exact natToHexRev_all_hex s s c hc
  have hvt : hexCharsVal (natToHexDigits t) = t := by
    rw [natToHexDigits, hexCharsVal_reverse]
    exact hexRevVal_natToHexRev t t le_rfl
  have hvs : hexCharsVal (natToHexDigits s) = s := by
    rw [natToHexDigits, hexCharsVal_reverse]
    exact hexRevVal_natToHexRev s s le_rfl
  exact ⟨rfl, zfill_length 32 _ hlt, zfill_all_hex 32 _ hhext,
    by rw [hexCharsVal_zfill]; exact hvt,
    rfl, zfill_length 16 _ hls, zfill_all_hex 16 _ hhexs,
    by rw [hexCharsVal_zfill]; exact hvs⟩

/-- Witness for C9 at the concrete trace id 3735928559 and span id 48879. -/
theorem format_ids_fixed_width_witness :
    (3735928559 : Nat) < 2 ^ 128 ∧ (48879 : Nat) < 2 ^ 64
    ∧ (format_trace_id 3735928559
        = String.mk ('0' :: 'x' :: zfill 32 (natToHexDigits 3735928559))
      ∧ (zfill 32 (natToHexDigits 3735928559)).length = 32
      ∧ (∀ c ∈ zfill 32 (natToHexDigits 3735928559), isHexChar c = true)
      ∧ hexCharsVal (zfill 32 (natToHexDigits 3735928559)) = 3735928559
      ∧ format_span_id 48879
        = String.mk ('0' :: 'x' :: zfill 16 (natToHexDigits 48879))
      ∧ (zfill 16 (natToHexDigits 48879)).length = 16
      ∧ (∀ c ∈ zfill 16 (natToHexDigits 48879), isHexChar c = true)
      ∧ hexCharsVal (zfill 16 (natToHexDigits 48879)) = 48879) :=
  ⟨by decide, by decide,
    format_ids_fixed_width 3735928559 48879 (by decide) (by decide)⟩

/-! ## Decision object identity
Python `Decision` instances are mutable heap objects (`self.sampled = ...`,
sampling.py lines 36-45).  `StaticSampler.should_sample` returns the one
object stored at construction (`return self._decision`, sampling.py line 75),
while `ProbabilitySampler.should_sample` constructs a new `Decision` on every
call (sampling.py lines 112-115).  To reason about mutation of returned
decisions we model a heap of `Decision` cells addressed by references. -/

/-- A reference to a `Decision` object (its identity). -/
abbrev DecisionRef := Nat

/-- The heap of all allocated `Decision` objects. -/
structure DecisionHeap where
  cells : List Decision
deriving DecidableEq

/-- Allocate a new `Decision` object, returning its (fresh) reference. -/
def DecisionHeap.alloc (h : DecisionHeap) (d : Decision) :
    DecisionRef × DecisionHeap :=
  (h.cells.length, ⟨h.cells ++ [d]⟩)

/-- Read the `Decision` object a reference points to. -/
def DecisionHeap.read (h : DecisionHeap) (r : DecisionRef) : Option Decision :=
  h.cells[r]?

/-- Mutate the `sampled` field of the `Decision` object a reference points to
(the Python assignment `decision.sampled = b`). -/
def DecisionHeap.set_sampled (h : DecisionHeap) (r : DecisionRef) (b : Bool) :
    DecisionHeap :=
  match h.cells[r]? with
  | some d => ⟨h.cells.set r ⟨b, d.attributes⟩⟩
  | none => h

/-- `StaticSampler` holds a reference to the `Decision` object it was
constructed with (sampling.py lines 61-65). -/
structure StaticSamplerRef where
  _decision : DecisionRef

/-- `StaticSampler.should_sample` returns the stored `Decision` object itself,
allocating nothing (sampling.py lines 67-75: `return self._decision`). -/
def StaticSamplerRef.should_sample (s : StaticSamplerRef) (h : DecisionHeap)
    (parent_context : Option SpanContext) (trace_id : Nat) (span_id : Nat)
    (name : String) (links : List Link) : DecisionRef × DecisionHeap :=
  (s._decision, h)

/-- `ProbabilitySampler.should_sample` at the heap level: both branches of the
source construct a new `Decision(...)`, so a fresh object holding the pure
decision value is allocated on every call (sampling.py lines 112-115). -/
def ProbabilitySampler.should_sample_heap (s : ProbabilitySampler)
    (h : DecisionHeap) (parent_context : Option SpanContext) (trace_id : Nat)
    (span_id : Nat) (name : String) (links : List Link) :
    DecisionRef × DecisionHeap :=
  h.alloc (s.should_sample parent_context trace_id span_id name links)

/-! ## Claim C10 -/

/-- C10 counterexample: `ALWAYS_ON` is `StaticSampler(Decision(True))`
(sampling.py line 120).  Allocate that decision, call `should_sample`, mutate
the returned decision's `sampled` field to `False`, and call again: the later
call returns the very same object, now reading `False` instead of the
original `Decision(True)` value — so a returned `Decision` is retained by the
sampler and mutation does affect later calls, contrary to the claim. -/
theorem static_sampler_retained_decision_cex :
    let h0 : DecisionHeap := ⟨[]⟩
    let ad := h0.alloc (Decision.init true none)
    let s : StaticSamplerRef := ⟨ad.1⟩
    let call1 := s.should_sample ad.2 none 1 2 "root" []
    let h2 := (call1.2).set_sampled call1.1 false
    let call2 := s.should_sample h2 none 3 4 "later" []
    (call2.2).read call2.1 = some ⟨false, []⟩
    ∧ (call2.2).read call2.1 ≠ some (Decision.init true none)
    ∧ call2.1 = call1.1 := by
  decide

/-- C10 amended: `ProbabilitySampler.should_sample` does allocate a fresh
`Decision` per call (its reference is the next unused cell, and the decision
read back after first mutating any previously returned decision is exactly
the pure decision value, unaffected); but `StaticSampler.should_sample`
returns its single stored `Decision` object on every call without allocating,
so mutations to that object are visible in the result of every later call. -/
theorem decision_freshness_amended (s : ProbabilitySampler) (h : DecisionHeap)
    (r : DecisionRef) (b : Bool) (p : Option SpanContext) (t sid : Nat)
    (n : String) (ls : List Link) (st : StaticSamplerRef) :
    (s.should_sample_heap h p t sid n ls).1 = h.cells.length
    ∧ ((s.should_sample_heap (h.set_sampled r b) p t sid n ls).2).read
        (s.should_sample_heap (h.set_sampled r b) p t sid n ls).1
        = some (s.should_sample p t sid n ls)
    ∧ (st.should_sample h p t sid n ls).1 = st._decision
    ∧ (st.should_sample h p t sid n ls).2 = h := by
  refine ⟨rfl, ?_, rfl, rfl⟩
  simp only [ProbabilitySampler.should_sample_heap, DecisionHeap.alloc,
    DecisionHeap.read]
  exact List.getElem?_concat_length _ _

end OTelTrace
